import Mathlib

/-!
Verification of the `auto_model_generation` repository: pydantic-v1 style
schema declarations (`Customer`, `BaseCustomer`, the `Problems` tree), a
`pydantic_factories` mock factory for `Customer`, and the smoke test
`test_customer`.  The input universe of the validators is a JSON-like
`Value` type; models are Lean structures and construction is an explicit
validate-and-construct function that collects one error per failing field,
mirroring pydantic v1 semantics (alias lookup first, population by field
name allowed, lenient primitive coercion, error locations by alias).
-/

/-- A decoded JSON-like value, the input universe of the validators. -/
inductive Value where
  | str (s : String)
  | int (n : Int)
  | list (vs : List Value)
  | dict (kvs : List (String × Value))
  | null
deriving Repr

/-- An input mapping: key-value pairs, as decoded from a JSON object. -/
abbrev Mapping := List (String × Value)

/-- One entry of a pydantic `ValidationError`: the reported field location
(pydantic v1 reports locations by alias) and a message. -/
structure FieldError where
  loc : String
  msg : String
deriving Repr, DecidableEq

/-- Field lookup as pydantic v1 `validate_model` performs it: the alias is
tried first; when the model config sets `allow_population_by_field_name`
(the `byName` flag) and the field has a distinct alias, the internal field
name is tried next. -/
def lookupField (byName : Bool) (m : Mapping) (fname aliasName : String) : Option Value :=
  match m.lookup aliasName with
  | some v => some v
  | none => if byName && fname != aliasName then m.lookup fname else none

/-- pydantic v1 `str` field validation: strings pass through, numbers are
coerced to their decimal rendering, `None` and structured values are
rejected. -/
def validateStr (v : Value) : Except String String :=
  match v with
  | .str s => .ok s
  | .int n => .ok (toString n)
  | .null => .error "none is not an allowed type"
  | _ => .error "str type expected"

/-- Decimal value of a nonempty all-digit character run; `none` on any
non-digit. -/
def digitsValAux (acc : Nat) : List Char → Option Nat
  | [] => some acc
  | c :: rest =>
    if c.isDigit then digitsValAux (acc * 10 + (c.toNat - 48)) rest else none

/-- Decimal value of a character run: at least one digit, digits only. -/
def digitsVal : List Char → Option Nat
  | [] => none
  | cs => digitsValAux 0 cs

/-- Integer parsing as Python `int(str)` performs it: surrounding
whitespace stripped, an optional sign, then a nonempty run of decimal
digits. -/
def pyInt? (s : String) : Option Int :=
  let cs := (((s.data.dropWhile (·.isWhitespace)).reverse).dropWhile (·.isWhitespace)).reverse
  match cs with
  | '-' :: rest => (digitsVal rest).map (fun n => -(n : Int))
  | '+' :: rest => (digitsVal rest).map (fun n => (n : Int))
  | _ => (digitsVal cs).map (fun n => (n : Int))

/-- pydantic v1 `int` field validation: integers pass through, strings are
parsed as Python integers, `None` and structured values are rejected. -/
def validateInt (v : Value) : Except String Int :=
  match v with
  | .int n => .ok n
  | .str s =>
    match pyInt? s with
    | some n => .ok n
    | none => .error "value is not a valid integer"
  | .null => .error "none is not an allowed type"
  | _ => .error "value is not a valid integer"

/-- Validate one declared field of a model against an input mapping:
missing fields yield `field required`, present values are run through the
field's validator; error locations carry the alias, as pydantic v1 does. -/
def fieldResult {α : Type} (m : Mapping) (fname aliasName : String)
    (vf : Value → Except String α) : Except FieldError α :=
  match lookupField true m fname aliasName with
  | none => .error ⟨aliasName, "field required"⟩
  | some v =>
    match vf v with
    | .ok a => .ok a
    | .error msg => .error ⟨aliasName, msg⟩

/-- The contribution of one field's result to the collected error list. -/
def collectErr {α : Type} : Except FieldError α → List FieldError
  | .ok _ => []
  | .error e => [e]

/-- `src/customer_model.py`: the `Customer` schema.  Fields `name`, `email`,
`role` are required text; `customer_id` is a required integer whose wire
alias is `customerId`; the config allows population by field name. -/
structure Customer where
  name : String
  email : String
  role : String
  customer_id : Int
deriving Repr, DecidableEq

/-- All per-field failures of `Customer` validation on a mapping, in field
declaration order (pydantic v1 collects every field error, fail-slow). -/
def customerFieldErrors (m : Mapping) : List FieldError :=
  collectErr (fieldResult m "name" "name" validateStr) ++
  collectErr (fieldResult m "email" "email" validateStr) ++
  collectErr (fieldResult m "role" "role" validateStr) ++
  collectErr (fieldResult m "customer_id" "customerId" validateInt)

/-- Validate-and-construct a `Customer` from an input mapping, as pydantic
v1 does when the class is applied to decoded data: every field is checked,
and on any failure a `ValidationError` carrying the whole error list is
raised (no instance is produced). -/
def Customer.validate (m : Mapping) : Except (List FieldError) Customer :=
  match fieldResult m "name" "name" validateStr,
        fieldResult m "email" "email" validateStr,
        fieldResult m "role" "role" validateStr,
        fieldResult m "customer_id" "customerId" validateInt with
  | .ok nm, .ok em, .ok rl, .ok ci => .ok ⟨nm, em, rl, ci⟩
  | _, _, _, _ => .error (customerFieldErrors m)

/-- pydantic v1 `.dict(by_alias=b)` serialization of a `Customer`: keys in
field declaration order; the identifier field is emitted under its alias
`customerId` exactly when `byAlias` is set, and under its internal name
`customer_id` otherwise (pydantic's default is `by_alias=False`). -/
def Customer.dict (byAlias : Bool) (c : Customer) : Mapping :=
  [("name", .str c.name),
   ("email", .str c.email),
   ("role", .str c.role),
   (if byAlias then "customerId" else "customer_id", .int c.customer_id)]

/-- `src/base_customer.py`: the `BaseCustomer` schema, generated from the
same `customer.json` as `Customer` — identical field declarations. -/
structure BaseCustomer where
  name : String
  email : String
  role : String
  customer_id : Int
deriving Repr, DecidableEq

/-- All per-field failures of `BaseCustomer` validation, in declaration
order. -/
def baseCustomerFieldErrors (m : Mapping) : List FieldError :=
  collectErr (fieldResult m "name" "name" validateStr) ++
  collectErr (fieldResult m "email" "email" validateStr) ++
  collectErr (fieldResult m "role" "role" validateStr) ++
  collectErr (fieldResult m "customer_id" "customerId" validateInt)

/-- Validate-and-construct a `BaseCustomer` from an input mapping. -/
def BaseCustomer.validate (m : Mapping) : Except (List FieldError) BaseCustomer :=
  match fieldResult m "name" "name" validateStr,
        fieldResult m "email" "email" validateStr,
        fieldResult m "role" "role" validateStr,
        fieldResult m "customer_id" "customerId" validateInt with
  | .ok nm, .ok em, .ok rl, .ok ci => .ok ⟨nm, em, rl, ci⟩
  | _, _, _, _ => .error (baseCustomerFieldErrors m)

/-- Modelled from the spec: syntactic validity of an email address (the
`Faker.email()` generator and its guarantee are not in `src/`).  Per the
spec a valid address is local-part `@` domain with a nonempty local part
and a dotted, nonempty domain. -/
def validEmail (s : String) : Bool :=
  let cs := s.data
  let lp := cs.takeWhile (· ≠ '@')
  let dom := (cs.dropWhile (· ≠ '@')).drop 1
  cs.count '@' == 1 && !lp.isEmpty && !dom.isEmpty &&
    dom.contains '.' && dom.head? != some '.' && dom.getLast? != some '.'

/-- `src/customer_mock_factory.py`: the factory's state for one run.  The
class body computes `FAKE.email()`, `FAKE.name()`, `FAKE.job()` once at
factory-definition time, so `email`, `name`, `role` are fixed values; the
unlisted field `customer_id` is generated afresh per `build()` call, which
we model as a function of the call index. -/
structure MockCustomerFactory where
  email : String
  name : String
  role : String
  idGen : Nat → Int

/-- `MockCustomerFactory.build()`: fills the three fixed fields from the
factory attributes and generates the identifier. -/
def MockCustomerFactory.build (fac : MockCustomerFactory) (i : Nat) : Customer :=
  ⟨fac.name, fac.email, fac.role, fac.idGen i⟩

/-- Modelled from the spec: the guarantees of the fake-value generators
(Faker and the `pydantic_factories` integer generator are not in `src/`).
Per the spec the factory fills a name field with free text, an email field
with a syntactically valid email string, a role field with a job-title-like
string, and an identifier field with a positive integer. -/
def SpecFaker (fac : MockCustomerFactory) : Prop :=
  fac.name ≠ "" ∧ validEmail fac.email = true ∧ fac.role ≠ "" ∧ ∀ i, 0 < fac.idGen i

/-- `src/test_customer.py`, `customers` fixture: a batch of 25 instances
built by `MockCustomerFactory.build()`. -/
def customers (fac : MockCustomerFactory) : List Customer :=
  (List.range 25).map fac.build

/-- One observable step of the test body: an assertion on a field's Python
truthiness, or a stop at an interactive debugger. -/
inductive TestStep where
  | assertion (loc : String) (holds : Bool)
  | breakpointStop
deriving Repr, DecidableEq

/-- `src/test_customer.py`, `test_customer`: asserts the truthiness of
`name`, `email`, `role`, `customer_id` for every customer in the batch,
then executes `breakpoint()` (line 19). -/
def test_customer (cs : List Customer) : List TestStep :=
  (cs.flatMap fun c =>
    [TestStep.assertion "name" (c.name ≠ ""),
     TestStep.assertion "email" (c.email ≠ ""),
     TestStep.assertion "role" (c.role ≠ ""),
     TestStep.assertion "customer_id" (c.customer_id ≠ 0)]) ++
  [TestStep.breakpointStop]

/-- pydantic v1 `List[X]` field validation: the value must be a list and
every element must validate as an `X`; an empty list is accepted. -/
def validateElems {α : Type} (vf : Value → Except String α) :
    List Value → Except String (List α)
  | [] => .ok []
  | v :: rest =>
    match vf v, validateElems vf rest with
    | .ok a, .ok tl => .ok (a :: tl)
    | .error e, _ => .error e
    | _, .error e => .error e

/-- A `List[X]` field value: `None` and non-list values are rejected. -/
def validateList {α : Type} (vf : Value → Except String α) (v : Value) :
    Except String (List α) :=
  match v with
  | .list vs => validateElems vf vs
  | .null => .error "none is not an allowed type"
  | _ => .error "value is not a valid list"

/-- A nested sub-record value: must be a dict that validates under the
sub-model's validator. -/
def validateDict {α : Type} (vf : Mapping → Except (List FieldError) α) (v : Value) :
    Except String α :=
  match v with
  | .dict kvs =>
    match vf kvs with
    | .ok a => .ok a
    | .error _ => .error "invalid nested record"
  | .null => .error "none is not an allowed type"
  | _ => .error "value is not a valid dict"

/-- `src/base_problems.py`: `AssociatedDrugItem` — a `{name, dose,
strength}` triple of required text. -/
structure AssociatedDrugItem where
  name : String
  dose : String
  strength : String
deriving Repr, DecidableEq

def associatedDrugItemFieldErrors (m : Mapping) : List FieldError :=
  collectErr (fieldResult m "name" "name" validateStr) ++
  collectErr (fieldResult m "dose" "dose" validateStr) ++
  collectErr (fieldResult m "strength" "strength" validateStr)

def AssociatedDrugItem.validate (m : Mapping) : Except (List FieldError) AssociatedDrugItem :=
  match fieldResult m "name" "name" validateStr,
        fieldResult m "dose" "dose" validateStr,
        fieldResult m "strength" "strength" validateStr with
  | .ok nm, .ok ds, .ok st => .ok ⟨nm, ds, st⟩
  | _, _, _ => .error (associatedDrugItemFieldErrors m)

/-- `src/base_problems.py`: `AssociatedDrug2Item` — same shape as
`AssociatedDrugItem`. -/
structure AssociatedDrug2Item where
  name : String
  dose : String
  strength : String
deriving Repr, DecidableEq

def associatedDrug2ItemFieldErrors (m : Mapping) : List FieldError :=
  collectErr (fieldResult m "name" "name" validateStr) ++
  collectErr (fieldResult m "dose" "dose" validateStr) ++
  collectErr (fieldResult m "strength" "strength" validateStr)

def AssociatedDrug2Item.validate (m : Mapping) : Except (List FieldError) AssociatedDrug2Item :=
  match fieldResult m "name" "name" validateStr,
        fieldResult m "dose" "dose" validateStr,
        fieldResult m "strength" "strength" validateStr with
  | .ok nm, .ok ds, .ok st => .ok ⟨nm, ds, st⟩
  | _, _, _ => .error (associatedDrug2ItemFieldErrors m)

/-- `src/base_problems.py`: `ClassNameItem` — two drug-association lists,
aliased `associatedDrug` and `associatedDrug#2`. -/
structure ClassNameItem where
  associated_drug : List AssociatedDrugItem
  associated_drug_2 : List AssociatedDrug2Item
deriving Repr, DecidableEq

def classNameItemFieldErrors (m : Mapping) : List FieldError :=
  collectErr (fieldResult m "associated_drug" "associatedDrug" (validateList (validateDict AssociatedDrugItem.validate))) ++
  collectErr (fieldResult m "associated_drug_2" "associatedDrug#2" (validateList (validateDict AssociatedDrug2Item.validate)))

def ClassNameItem.validate (m : Mapping) : Except (List FieldError) ClassNameItem :=
  match fieldResult m "associated_drug" "associatedDrug" (validateList (validateDict AssociatedDrugItem.validate)),
        fieldResult m "associated_drug_2" "associatedDrug#2" (validateList (validateDict AssociatedDrug2Item.validate)) with
  | .ok ad, .ok ad2 => .ok ⟨ad, ad2⟩
  | _, _ => .error (classNameItemFieldErrors m)

/-- `src/base_problems.py`: `ClassName2Item` — same shape as
`ClassNameItem`. -/
structure ClassName2Item where
  associated_drug : List AssociatedDrugItem
  associated_drug_2 : List AssociatedDrug2Item
deriving Repr, DecidableEq

def className2ItemFieldErrors (m : Mapping) : List FieldError :=
  collectErr (fieldResult m "associated_drug" "associatedDrug" (validateList (validateDict AssociatedDrugItem.validate))) ++
  collectErr (fieldResult m "associated_drug_2" "associatedDrug#2" (validateList (validateDict AssociatedDrug2Item.validate)))

def ClassName2Item.validate (m : Mapping) : Except (List FieldError) ClassName2Item :=
  match fieldResult m "associated_drug" "associatedDrug" (validateList (validateDict AssociatedDrugItem.validate)),
        fieldResult m "associated_drug_2" "associatedDrug#2" (validateList (validateDict AssociatedDrug2Item.validate)) with
  | .ok ad, .ok ad2 => .ok ⟨ad, ad2⟩
  | _, _ => .error (className2ItemFieldErrors m)

/-- `src/base_problems.py`: `MedicationsClass` — two list-of-class groups,
aliased `className` and `className2`. -/
structure MedicationsClass where
  class_name : List ClassNameItem
  class_name2 : List ClassName2Item
deriving Repr, DecidableEq

def medicationsClassFieldErrors (m : Mapping) : List FieldError :=
  collectErr (fieldResult m "class_name" "className" (validateList (validateDict ClassNameItem.validate))) ++
  collectErr (fieldResult m "class_name2" "className2" (validateList (validateDict ClassName2Item.validate)))

def MedicationsClass.validate (m : Mapping) : Except (List FieldError) MedicationsClass :=
  match fieldResult m "class_name" "className" (validateList (validateDict ClassNameItem.validate)),
        fieldResult m "class_name2" "className2" (validateList (validateDict ClassName2Item.validate)) with
  | .ok cn, .ok cn2 => .ok ⟨cn, cn2⟩
  | _, _ => .error (medicationsClassFieldErrors m)

/-- `src/base_problems.py`: `Medication` — one list field aliased
`medicationsClasses`. -/
structure Medication where
  medications_classes : List MedicationsClass
deriving Repr, DecidableEq

def medicationFieldErrors (m : Mapping) : List FieldError :=
  collectErr (fieldResult m "medications_classes" "medicationsClasses" (validateList (validateDict MedicationsClass.validate)))

def Medication.validate (m : Mapping) : Except (List FieldError) Medication :=
  match fieldResult m "medications_classes" "medicationsClasses" (validateList (validateDict MedicationsClass.validate)) with
  | .ok mc => .ok ⟨mc⟩
  | _ => .error (medicationFieldErrors m)

/-- `src/base_problems.py`: `Lab` — a single required text field
`missing_field` (the schema stub). -/
structure Lab where
  missing_field : String
deriving Repr, DecidableEq

def labFieldErrors (m : Mapping) : List FieldError :=
  collectErr (fieldResult m "missing_field" "missing_field" validateStr)

def Lab.validate (m : Mapping) : Except (List FieldError) Lab :=
  match fieldResult m "missing_field" "missing_field" validateStr with
  | .ok mf => .ok ⟨mf⟩
  | _ => .error (labFieldErrors m)

/-- `src/base_problems.py`: `Diabetes` — required lists `medications` and
`labs`, no aliases. -/
structure Diabetes where
  medications : List Medication
  labs : List Lab
deriving Repr, DecidableEq

def diabetesFieldErrors (m : Mapping) : List FieldError :=
  collectErr (fieldResult m "medications" "medications" (validateList (validateDict Medication.validate))) ++
  collectErr (fieldResult m "labs" "labs" (validateList (validateDict Lab.validate)))

def Diabetes.validate (m : Mapping) : Except (List FieldError) Diabetes :=
  match fieldResult m "medications" "medications" (validateList (validateDict Medication.validate)),
        fieldResult m "labs" "labs" (validateList (validateDict Lab.validate)) with
  | .ok md, .ok lb => .ok ⟨md, lb⟩
  | _, _ => .error (diabetesFieldErrors m)

theorem mem_collectErr {α : Type} (r : Except FieldError α) (fe : FieldError) :
    fe ∈ collectErr r ↔ r = .error fe := by
  cases r <;> simp [collectErr, eq_comm]

/-- Claim C2: constructing a `Customer` from the mapping with key
`customerId` succeeds with `customer_id = 7`, and constructing from the
same mapping with key `customer_id` instead also succeeds with an instance
equal in all fields. -/
theorem customer_alias_population :
    Customer.validate
      [("name", .str "A"), ("email", .str "a@b.com"),
       ("role", .str "eng"), ("customerId", .int 7)] =
      .ok ⟨"A", "a@b.com", "eng", 7⟩ ∧
    Customer.validate
      [("name", .str "A"), ("email", .str "a@b.com"),
       ("role", .str "eng"), ("customer_id", .int 7)] =
      .ok ⟨"A", "a@b.com", "eng", 7⟩ :=
  ⟨rfl, rfl⟩

/-- Claim C3: for every validly constructed `Customer` and either
serialization mode (`by_alias` true or false), serializing and then
validating-and-constructing from the serialized mapping succeeds and
reproduces the original instance in all fields. -/
theorem customer_roundtrip (b : Bool) (c : Customer) :
    Customer.validate (Customer.dict b c) = .ok c := by
  cases b <;> rfl

/-- Claim C4, counterexample: serializing a concrete validated `Customer`
with pydantic's default serialization (`by_alias=False`) emits the internal
key `customer_id` and does not emit the alias key `customerId`, contrary
to the claim that serialization produces alias keys. -/
theorem customer_dict_default_emits_internal_name :
    ((Customer.dict false ⟨"A", "a@b.com", "eng", 7⟩).map Prod.fst =
      ["name", "email", "role", "customer_id"]) ∧
    "customerId" ∉ (Customer.dict false ⟨"A", "a@b.com", "eng", 7⟩).map Prod.fst := by
  exact ⟨rfl, by decide⟩

/-- Claim C4, amended: serializing with `by_alias=True` emits the alias key
`customerId` for the identifier field (and internal names for unaliased
fields), while the default serialization (`by_alias=False`) emits the
internal name `customer_id`. -/
theorem customer_dict_alias_keys (c : Customer) :
    (Customer.dict true c).map Prod.fst = ["name", "email", "role", "customerId"] ∧
    (Customer.dict false c).map Prod.fst = ["name", "email", "role", "customer_id"] :=
  ⟨rfl, rfl⟩

/-- Claim C8: the test body of `test_customer` always executes the
interactive-debugger stop left at `src/test_customer.py:19`, for every
batch of customers — refuting the claim that no pause-the-program call
remains in the finished suite. -/
theorem test_customer_reaches_breakpoint (cs : List Customer) :
    TestStep.breakpointStop ∈ test_customer cs := by
  simp [test_customer]

/-- Claim C10: any two instances produced by `MockCustomerFactory.build()`
within one run (one factory state) have equal `name`, `email` and `role`
fields, since those are fixed at factory-definition time. -/
theorem mock_factory_constant_scalar_fields (fac : MockCustomerFactory) (i j : Nat) :
    (fac.build i).name = (fac.build j).name ∧
    (fac.build i).email = (fac.build j).email ∧
    (fac.build i).role = (fac.build j).role :=
  ⟨rfl, rfl, rfl⟩

/-- Claim C1: for any factory state whose generators meet the spec's
contract, the fixture batch has exactly 25 instances and every instance
has a non-empty name, a syntactically valid email, a non-empty role and a
non-zero integer identifier. -/
theorem mock_factory_batch_valid (fac : MockCustomerFactory) (h : SpecFaker fac) :
    (customers fac).length = 25 ∧
    ∀ c ∈ customers fac,
      c.name ≠ "" ∧ validEmail c.email = true ∧ c.role ≠ "" ∧ c.customer_id ≠ 0 := by
  obtain ⟨hn, he, hr, hid⟩ := h
  refine ⟨by simp [customers], ?_⟩
  intro c hc
  simp only [customers, List.mem_map, List.mem_range] at hc
  obtain ⟨i, _, rfl⟩ := hc
  exact ⟨hn, he, hr, (hid i).ne'⟩

theorem mock_factory_batch_valid_witness :
    (customers ⟨"jane.doe@example.org", "Jane Doe", "Engineer", fun _ => 1⟩).length = 25 ∧
    ∀ c ∈ customers ⟨"jane.doe@example.org", "Jane Doe", "Engineer", fun _ => 1⟩,
      c.name ≠ "" ∧ validEmail c.email = true ∧ c.role ≠ "" ∧ c.customer_id ≠ 0 :=
  mock_factory_batch_valid ⟨"jane.doe@example.org", "Jane Doe", "Engineer", fun _ => 1⟩
    ⟨by decide, by decide, by decide, fun _ => zero_lt_one⟩

/-- Claim C5: for every input mapping lacking the `email` key, `Customer`
construction fails with a `ValidationError` whose error list contains the
`field required` entry for `email`, and that list enumerates exactly the
per-field failures of all four declared fields (collect-all, not
fail-fast); no instance is constructed on failure. -/
theorem customer_missing_email_collects (m : Mapping)
    (h : lookupField true m "email" "email" = none) :
    Customer.validate m = .error (customerFieldErrors m) ∧
    FieldError.mk "email" "field required" ∈ customerFieldErrors m ∧
    ∀ fe : FieldError, fe ∈ customerFieldErrors m ↔
      (fieldResult m "name" "name" validateStr = .error fe ∨
       fieldResult m "email" "email" validateStr = .error fe ∨
       fieldResult m "role" "role" validateStr = .error fe ∨
       fieldResult m "customer_id" "customerId" validateInt = .error fe) := by
  have hemail : fieldResult m "email" "email" validateStr =
      .error ⟨"email", "field required"⟩ := by
    simp [fieldResult, h]
  refine ⟨?_, ?_, ?_⟩
  · cases h1 : fieldResult m "name" "name" validateStr <;>
      cases h3 : fieldResult m "role" "role" validateStr <;>
        cases h4 : fieldResult m "customer_id" "customerId" validateInt <;>
          simp [Customer.validate, h1, hemail, h3, h4]
  · simp [customerFieldErrors, hemail, collectErr]
  · intro fe
    simp [customerFieldErrors, mem_collectErr, or_assoc]

theorem customer_missing_email_collects_witness :
    Customer.validate
      [("name", Value.str "A"), ("role", Value.str "eng"), ("customerId", Value.int 7)] =
      .error (customerFieldErrors
        [("name", Value.str "A"), ("role", Value.str "eng"), ("customerId", Value.int 7)]) ∧
    FieldError.mk "email" "field required" ∈ customerFieldErrors
      [("name", Value.str "A"), ("role", Value.str "eng"), ("customerId", Value.int 7)] ∧
    ∀ fe : FieldError, fe ∈ customerFieldErrors
        [("name", Value.str "A"), ("role", Value.str "eng"), ("customerId", Value.int 7)] ↔
      (fieldResult [("name", Value.str "A"), ("role", Value.str "eng"), ("customerId", Value.int 7)]
          "name" "name" validateStr = .error fe ∨
       fieldResult [("name", Value.str "A"), ("role", Value.str "eng"), ("customerId", Value.int 7)]
          "email" "email" validateStr = .error fe ∨
       fieldResult [("name", Value.str "A"), ("role", Value.str "eng"), ("customerId", Value.int 7)]
          "role" "role" validateStr = .error fe ∨
       fieldResult [("name", Value.str "A"), ("role", Value.str "eng"), ("customerId", Value.int 7)]
          "customer_id" "customerId" validateInt = .error fe) :=
  customer_missing_email_collects
    [("name", Value.str "A"), ("role", Value.str "eng"), ("customerId", Value.int 7)] rfl

/-- Claim C6, counterexample: a non-integer value — the string "7" —
supplied for `customer_id` does not make construction fail: pydantic v1
coerces integer-formatted strings, so construction succeeds with
`customer_id = 7` (and an integer supplied for the text field `name` would
likewise be coerced). -/
theorem customer_accepts_string_for_int :
    Customer.validate
      [("name", .str "A"), ("email", .str "a@b.com"),
       ("role", .str "eng"), ("customerId", .str "7")] =
      .ok ⟨"A", "a@b.com", "eng", 7⟩ := rfl

/-- Claim C6, amended: construction succeeds exactly when every required
field is present (under its alias or internal name) and its value is of,
or coercible to, the declared primitive type (text fields also accept
numbers; the integer field also accepts integer-formatted strings); a
value that is not coercible — e.g. the string "abc" for `customer_id` —
makes construction fail with a `ValidationError` listing that field. -/
theorem customer_validate_presence_and_coercion :
    (∀ m : Mapping,
      (∃ c, Customer.validate m = .ok c) ↔
        ((∃ a, fieldResult m "name" "name" validateStr = .ok a) ∧
         (∃ a, fieldResult m "email" "email" validateStr = .ok a) ∧
         (∃ a, fieldResult m "role" "role" validateStr = .ok a) ∧
         (∃ a, fieldResult m "customer_id" "customerId" validateInt = .ok a))) ∧
    (∀ m : Mapping,
      lookupField true m "customer_id" "customerId" = some (Value.str "abc") →
        Customer.validate m = .error (customerFieldErrors m) ∧
        FieldError.mk "customerId" "value is not a valid integer" ∈ customerFieldErrors m) := by
  constructor
  · intro m
    constructor
    · rintro ⟨c, hc⟩
      cases h1 : fieldResult m "name" "name" validateStr <;>
        cases h2 : fieldResult m "email" "email" validateStr <;>
          cases h3 : fieldResult m "role" "role" validateStr <;>
            cases h4 : fieldResult m "customer_id" "customerId" validateInt <;>
              first
                | exact ⟨⟨_, rfl⟩, ⟨_, rfl⟩, ⟨_, rfl⟩, ⟨_, rfl⟩⟩
                | simp [Customer.validate, h1, h2, h3, h4] at hc
    · rintro ⟨⟨a1, h1⟩, ⟨a2, h2⟩, ⟨a3, h3⟩, ⟨a4, h4⟩⟩
      exact ⟨⟨a1, a2, a3, a4⟩, by simp [Customer.validate, h1, h2, h3, h4]⟩
  · intro m hm
    have h4 : fieldResult m "customer_id" "customerId" validateInt =
        .error ⟨"customerId", "value is not a valid integer"⟩ := by
      unfold fieldResult
      rw [hm]
      rfl
    constructor
    · cases h1 : fieldResult m "name" "name" validateStr <;>
        cases h2 : fieldResult m "email" "email" validateStr <;>
          cases h3 : fieldResult m "role" "role" validateStr <;>
            simp [Customer.validate, h1, h2, h3, h4]
    · simp [customerFieldErrors, h4, collectErr]

theorem customer_validate_presence_and_coercion_witness :
    Customer.validate
      [("name", Value.str "A"), ("email", Value.str "a@b.com"),
       ("role", Value.str "eng"), ("customerId", Value.str "abc")] =
      .error (customerFieldErrors
        [("name", Value.str "A"), ("email", Value.str "a@b.com"),
         ("role", Value.str "eng"), ("customerId", Value.str "abc")]) ∧
    FieldError.mk "customerId" "value is not a valid integer" ∈ customerFieldErrors
      [("name", Value.str "A"), ("email", Value.str "a@b.com"),
       ("role", Value.str "eng"), ("customerId", Value.str "abc")] :=
  customer_validate_presence_and_coercion.2
    [("name", Value.str "A"), ("email", Value.str "a@b.com"),
     ("role", Value.str "eng"), ("customerId", Value.str "abc")] rfl

/-- Claim C7: a `Diabetes` record built from `medications: []` and
`labs: []` is valid (empty lists are accepted), while any mapping missing
the `medications` key, or missing the `labs` key, fails with a
`ValidationError` naming the missing list field. -/
theorem diabetes_required_but_possibly_empty :
    (Diabetes.validate [("medications", Value.list []), ("labs", Value.list [])] =
      .ok ⟨[], []⟩) ∧
    (∀ m : Mapping, lookupField true m "medications" "medications" = none →
      Diabetes.validate m = .error (diabetesFieldErrors m) ∧
      FieldError.mk "medications" "field required" ∈ diabetesFieldErrors m) ∧
    (∀ m : Mapping, lookupField true m "labs" "labs" = none →
      Diabetes.validate m = .error (diabetesFieldErrors m) ∧
      FieldError.mk "labs" "field required" ∈ diabetesFieldErrors m) := by
  refine ⟨rfl, ?_, ?_⟩
  · intro m hm
    have h1 : fieldResult m "medications" "medications"
        (validateList (validateDict Medication.validate)) =
        .error ⟨"medications", "field required"⟩ := by
      unfold fieldResult
      rw [hm]
    constructor
    · cases h2 : fieldResult m "labs" "labs" (validateList (validateDict Lab.validate)) <;>
        simp [Diabetes.validate, h1, h2]
    · simp [diabetesFieldErrors, h1, collectErr]
  · intro m hm
    have h2 : fieldResult m "labs" "labs" (validateList (validateDict Lab.validate)) =
        .error ⟨"labs", "field required"⟩ := by
      unfold fieldResult
      rw [hm]
    constructor
    · cases h1 : fieldResult m "medications" "medications"
          (validateList (validateDict Medication.validate)) <;>
        simp [Diabetes.validate, h1, h2]
    · simp [diabetesFieldErrors, h2, collectErr]

theorem diabetes_required_but_possibly_empty_witness :
    (Diabetes.validate [("labs", Value.list [])] =
      .error (diabetesFieldErrors [("labs", Value.list [])]) ∧
     FieldError.mk "medications" "field required" ∈
      diabetesFieldErrors [("labs", Value.list [])]) ∧
    (Diabetes.validate [("medications", Value.list [])] =
      .error (diabetesFieldErrors [("medications", Value.list [])]) ∧
     FieldError.mk "labs" "field required" ∈
      diabetesFieldErrors [("medications", Value.list [])]) :=
  ⟨diabetes_required_but_possibly_empty.2.1 [("labs", Value.list [])] rfl,
   diabetes_required_but_possibly_empty.2.2 [("medications", Value.list [])] rfl⟩

theorem baseCustomer_validate_eq (m : Mapping) :
    BaseCustomer.validate m =
      (Customer.validate m).map (fun c => ⟨c.name, c.email, c.role, c.customer_id⟩) := by
  cases h1 : fieldResult m "name" "name" validateStr <;>
    cases h2 : fieldResult m "email" "email" validateStr <;>
      cases h3 : fieldResult m "role" "role" validateStr <;>
        cases h4 : fieldResult m "customer_id" "customerId" validateInt <;>
          simp [Customer.validate, BaseCustomer.validate, customerFieldErrors,
            baseCustomerFieldErrors, Except.map, h1, h2, h3, h4]

/-- Claim C9: the `Customer` and `BaseCustomer` schemas are equivalent —
on every input mapping, `Customer` construction succeeds exactly when
`BaseCustomer` construction does, and the successful results agree on
`name`, `email`, `role`, `customer_id` (the quantification over mappings
keyed either way covers the shared `customerId` alias behaviour). -/
theorem customer_baseCustomer_equiv (m : Mapping) :
    (∀ c : Customer, Customer.validate m = .ok c →
      BaseCustomer.validate m = .ok ⟨c.name, c.email, c.role, c.customer_id⟩) ∧
    (∀ b : BaseCustomer, BaseCustomer.validate m = .ok b →
      Customer.validate m = .ok ⟨b.name, b.email, b.role, b.customer_id⟩) := by
  constructor
  · intro c hc
    rw [baseCustomer_validate_eq, hc]
    rfl
  · intro b hb
    rw [baseCustomer_validate_eq] at hb
    cases hval : Customer.validate m with
    | ok c =>
      rw [hval] at hb
      simp only [Except.map] at hb
      cases hb
      rfl
    | error es =>
      rw [hval] at hb
      simp [Except.map] at hb

theorem customer_baseCustomer_equiv_witness :
    BaseCustomer.validate
      [("name", Value.str "A"), ("email", Value.str "a@b.com"),
       ("role", Value.str "eng"), ("customerId", Value.int 7)] =
      .ok ⟨"A", "a@b.com", "eng", 7⟩ :=
  (customer_baseCustomer_equiv
    [("name", Value.str "A"), ("email", Value.str "a@b.com"),
     ("role", Value.str "eng"), ("customerId", Value.int 7)]).1
    ⟨"A", "a@b.com", "eng", 7⟩ rfl
